import Mathlib

/-!
Verification of the trading-journal application (TypeScript + SQL sources)
against its natural-language specification.

The embedding models:
- the `TradingRecord` row shape and the derived-statistics computation of
  `TradingDashboard` (filter/reduce over the fetched records);
- the per-row display value of the records table;
- the `TradingRecordForm.handleSubmit` create/update paths, including the
  payload construction (`recordData`) and the `user_id` guard;
- the SQL `update_updated_at_column` trigger on `trading_records`;
- the `useUserRole` hook: its role computation from a lookup outcome, and a
  small trace semantics for effect invocations, cleanups and asynchronous
  lookup resolutions (to examine the stale-result guard).

Numeric JS values are modelled as `Rat` (prices, fees) and `Int`
(integer quantities, as produced by `parseInt`); optional / nullable fields
as `Option`; the empty string sentinel of optional numeric form fields as
`Option` with `none` standing for the empty string.
-/

namespace StockJournal

/-- The `role` enum of the `user_roles` table: `admin` or `user`. -/
inductive Role where
  | admin
  | user
deriving DecidableEq, Repr

/-- The `transaction_type` SQL enum / TS union: `buy` or `sell`. -/
inductive TransactionType where
  | buy
  | sell
deriving DecidableEq, Repr

/-- The `TradingRecord` interface of `TradingDashboard`: the row shape the
dashboard fetches and aggregates. `commission`, `tax`, `stock_name`, `notes`
are optional (nullable columns). -/
structure TradingRecord where
  id : String
  trade_date : String
  stock_symbol : String
  stock_name : Option String
  transaction_type : TransactionType
  quantity : Int
  price : Rat
  commission : Option Rat
  tax : Option Rat
  notes : Option String
  created_at : String
deriving DecidableEq, Repr

/-- `records.filter(r => r.transaction_type === 'buy').reduce((sum, r) => sum + (r.quantity * r.price), 0)` -/
def totalInvestment (records : List TradingRecord) : Rat :=
  (records.filter (fun r => decide (r.transaction_type = TransactionType.buy))).foldl
    (fun sum r => sum + (r.quantity : Rat) * r.price) 0

/-- `records.filter(r => r.transaction_type === 'sell').reduce((sum, r) => sum + (r.quantity * r.price), 0)` -/
def totalReturn (records : List TradingRecord) : Rat :=
  (records.filter (fun r => decide (r.transaction_type = TransactionType.sell))).foldl
    (fun sum r => sum + (r.quantity : Rat) * r.price) 0

/-- `records.reduce((sum, r) => sum + (r.commission || 0) + (r.tax || 0), 0)` -/
def totalFees (records : List TradingRecord) : Rat :=
  records.foldl (fun sum r => sum + (r.commission.getD 0) + (r.tax.getD 0)) 0

/-- `const totalPnL = totalReturn - totalInvestment - totalFees;` -/
def totalPnL (records : List TradingRecord) : Rat :=
  totalReturn records - totalInvestment records - totalFees records

/-- `records.length`, shown on the trade-count summary card. -/
def tradeCount (records : List TradingRecord) : Nat :=
  records.length

/-- The magnitude of the per-row value in the records table:
`record.quantity * record.price + (record.commission || 0) + (record.tax || 0)`. -/
def rowAmount (r : TradingRecord) : Rat :=
  (r.quantity : Rat) * r.price + (r.commission.getD 0) + (r.tax.getD 0)

/-- The signed per-row display value: the table renders
`record.transaction_type === 'buy' ? '-' : '+'` followed by `rowAmount`. -/
def displayValue (r : TradingRecord) : Rat :=
  if r.transaction_type = TransactionType.buy then -(rowAmount r) else rowAmount r

/-- Non-negativity condition on a record's numeric fields as the data model
states them: positive integer quantity, non-negative price and fees. -/
def validRecord (r : TradingRecord) : Prop :=
  0 < r.quantity ∧ 0 ≤ r.price ∧ 0 ≤ r.commission.getD 0 ∧ 0 ≤ r.tax.getD 0

instance (r : TradingRecord) : Decidable (validRecord r) := by
  unfold validRecord; infer_instance

/- ### Helper lemmas on fold/filter sums -/

theorem foldl_add_eq_sum {α : Type} (f : α → Rat) (l : List α) (a : Rat) :
    List.foldl (fun sum x => sum + f x) a l = a + (l.map f).sum := by
  induction l generalizing a with
  | nil => simp
  | cons x xs ih => simp [List.foldl_cons, ih, add_assoc]

theorem foldl_add2_eq_sum {α : Type} (f g : α → Rat) (l : List α) (a : Rat) :
    List.foldl (fun sum x => sum + f x + g x) a l
      = a + (l.map (fun x => f x + g x)).sum := by
  induction l generalizing a with
  | nil => simp
  | cons x xs ih =>
    rw [List.foldl_cons, ih]
    simp [add_assoc]

theorem sum_map_filter {α : Type} (p : α → Bool) (f : α → Rat) (l : List α) :
    ((l.filter p).map f).sum = (l.map (fun x => if p x then f x else 0)).sum := by
  induction l with
  | nil => rfl
  | cons x xs ih =>
    by_cases h : p x <;> simp [List.filter_cons, h, ih]

theorem totalInvestment_eq_sum (records : List TradingRecord) :
    totalInvestment records
      = (records.map (fun r =>
          if r.transaction_type = TransactionType.buy then (r.quantity : Rat) * r.price else 0)).sum := by
  unfold totalInvestment
  rw [foldl_add_eq_sum, sum_map_filter]
  simp

theorem totalReturn_eq_sum (records : List TradingRecord) :
    totalReturn records
      = (records.map (fun r =>
          if r.transaction_type = TransactionType.sell then (r.quantity : Rat) * r.price else 0)).sum := by
  unfold totalReturn
  rw [foldl_add_eq_sum, sum_map_filter]
  simp

theorem totalFees_eq_sum (records : List TradingRecord) :
    totalFees records
      = (records.map (fun r => r.commission.getD 0 + r.tax.getD 0)).sum := by
  unfold totalFees
  rw [foldl_add2_eq_sum]
  simp

/-- Claim C1: over any record list, `totalInvestment` sums `quantity × price`
over the buy records, `totalReturn` sums it over the sell records, `totalFees`
sums `commission + tax` over all records (absent fees as 0), `netProfitLoss`
is `totalReturn − totalInvestment − totalFees`, and `tradeCount` is the list
length. -/
theorem C1_aggregator_formulas (records : List TradingRecord) :
    totalInvestment records
      = (records.map (fun r =>
          if r.transaction_type = TransactionType.buy then (r.quantity : Rat) * r.price else 0)).sum
    ∧ totalReturn records
      = (records.map (fun r =>
          if r.transaction_type = TransactionType.sell then (r.quantity : Rat) * r.price else 0)).sum
    ∧ totalFees records
      = (records.map (fun r => r.commission.getD 0 + r.tax.getD 0)).sum
    ∧ totalPnL records = totalReturn records - totalInvestment records - totalFees records
    ∧ tradeCount records = records.length := by
  exact ⟨totalInvestment_eq_sum records, totalReturn_eq_sum records,
    totalFees_eq_sum records, rfl, rfl⟩

/-- A single buy record with no fees: a witness that the net profit/loss can
be negative on a list of valid records. -/
def lossRecord : TradingRecord :=
  { id := "neg", trade_date := "2025-01-02", stock_symbol := "AAA", stock_name := none,
    transaction_type := TransactionType.buy, quantity := 1, price := 1,
    commission := none, tax := none, notes := none, created_at := "t0" }

/-- Claim C4: over any list of records whose numeric fields satisfy the data
model (positive quantity, non-negative price and fees), `totalInvestment`,
`totalReturn` and `totalFees` are non-negative, while `netProfitLoss` can be
negative (witnessed by a single fee-free buy record). -/
theorem C4_statistics_sign (records : List TradingRecord)
    (h : ∀ r ∈ records, validRecord r) :
    (0 ≤ totalInvestment records ∧ 0 ≤ totalReturn records ∧ 0 ≤ totalFees records)
    ∧ (validRecord lossRecord ∧ totalPnL [lossRecord] < 0) := by
  refine ⟨⟨?_, ?_, ?_⟩, by norm_num [validRecord, lossRecord], by
    norm_num [totalPnL, totalReturn, totalInvestment, totalFees, lossRecord,
      List.filter_cons, List.foldl]⟩
  · rw [totalInvestment_eq_sum]
    apply List.sum_nonneg
    intro x hx
    obtain ⟨r, hr, rfl⟩ := List.mem_map.mp hx
    obtain ⟨hq, hp, _, _⟩ := h r hr
    split
    · exact mul_nonneg (by exact_mod_cast hq.le) hp
    · exact le_refl 0
  · rw [totalReturn_eq_sum]
    apply List.sum_nonneg
    intro x hx
    obtain ⟨r, hr, rfl⟩ := List.mem_map.mp hx
    obtain ⟨hq, hp, _, _⟩ := h r hr
    split
    · exact mul_nonneg (by exact_mod_cast hq.le) hp
    · exact le_refl 0
  · rw [totalFees_eq_sum]
    apply List.sum_nonneg
    intro x hx
    obtain ⟨r, hr, rfl⟩ := List.mem_map.mp hx
    obtain ⟨_, _, hc, ht⟩ := h r hr
    exact add_nonneg hc ht

/-- Instantiation of `C4_statistics_sign` on the empty record list. -/
theorem C4_statistics_sign_witness :
    (0 ≤ totalInvestment [] ∧ 0 ≤ totalReturn [] ∧ 0 ≤ totalFees [])
    ∧ (validRecord lossRecord ∧ totalPnL [lossRecord] < 0) :=
  C4_statistics_sign [] (by simp)

/-- A concrete buy record shown in the table (fees present on commission). -/
def buyDisplayRec : TradingRecord :=
  { id := "b1", trade_date := "2025-01-03", stock_symbol := "AAA", stock_name := none,
    transaction_type := TransactionType.buy, quantity := 10, price := 100,
    commission := some 5, tax := none, notes := none, created_at := "t1" }

/-- A concrete sell record shown in the table (commission and tax present). -/
def sellDisplayRec : TradingRecord :=
  { id := "s1", trade_date := "2025-01-04", stock_symbol := "BBB", stock_name := none,
    transaction_type := TransactionType.sell, quantity := 10, price := 100,
    commission := some 5, tax := some 3, notes := none, created_at := "t2" }

/-- Claim C5: the per-row displayed value is
`-(quantity × price + commission + tax)` for a buy record and
`+(quantity × price + commission + tax)` for a sell record, with absent
commission or tax treated as 0. -/
theorem C5_row_display (r : TradingRecord) :
    (r.transaction_type = TransactionType.buy →
      displayValue r
        = -((r.quantity : Rat) * r.price + r.commission.getD 0 + r.tax.getD 0))
    ∧ (r.transaction_type = TransactionType.sell →
      displayValue r
        = (r.quantity : Rat) * r.price + r.commission.getD 0 + r.tax.getD 0) := by
  constructor <;> intro h <;> simp [displayValue, rowAmount, h]

/-- Instantiation of `C5_row_display` on a concrete buy and a concrete sell
record. -/
theorem C5_row_display_witness :
    displayValue buyDisplayRec
      = -((buyDisplayRec.quantity : Rat) * buyDisplayRec.price
          + buyDisplayRec.commission.getD 0 + buyDisplayRec.tax.getD 0)
    ∧ displayValue sellDisplayRec
      = (sellDisplayRec.quantity : Rat) * sellDisplayRec.price
          + sellDisplayRec.commission.getD 0 + sellDisplayRec.tax.getD 0 :=
  ⟨(C5_row_display buyDisplayRec).1 rfl, (C5_row_display sellDisplayRec).2 rfl⟩

/-- Claim C8: on the empty record list every statistic is zero and the trade
count is zero (all the statistics are total functions, so no error can be
raised). -/
theorem C8_empty_records_zero :
    totalInvestment [] = 0 ∧ totalReturn [] = 0 ∧ totalFees [] = 0
    ∧ totalPnL [] = 0 ∧ tradeCount [] = 0 := by
  refine ⟨rfl, rfl, rfl, ?_, rfl⟩
  simp [totalPnL, totalInvestment, totalReturn, totalFees]

/- ### The trading-record form: create and update paths of `handleSubmit` -/

/-- ASCII uppercase of a string, modelling `String.prototype.toUpperCase`
on the short ticker symbols the form handles (structural over the
character list so that concrete instances evaluate). -/
def upperJS (s : String) : String := String.mk (s.data.map Char.toUpper)

/-- The editable fields of `TradingRecordForm`'s `formData` state. Text
fields are strings with the empty string as the unfilled sentinel. The
numeric fields are modelled as their parsed values: `quantity` and `price`
are required inputs (`parseInt` / `parseFloat` of a non-empty string), and
the two optional fee fields are `Option` with `none` standing for the empty
string tested by the `formData.commission ? parseFloat(...) : 0` guard. -/
structure FormData where
  trade_date : String
  stock_symbol : String
  stock_name : String
  transaction_type : TransactionType
  quantity : Int
  price : Rat
  commission : Option Rat
  tax : Option Rat
  notes : String
deriving DecidableEq, Repr

/-- The `recordData` object built in `handleSubmit`: the exact column set
sent to the store on both create and update. -/
structure RecordData where
  trade_date : String
  stock_symbol : String
  stock_name : Option String
  transaction_type : TransactionType
  quantity : Int
  price : Rat
  commission : Rat
  tax : Rat
  notes : Option String
deriving DecidableEq, Repr

/-- `handleSubmit`'s payload construction: uppercases the symbol
(`formData.stock_symbol.toUpperCase()`), turns empty text fields into NULL
(`formData.stock_name || null`, `formData.notes || null`), and defaults an
absent commission or tax to 0. -/
def buildRecordData (f : FormData) : RecordData :=
  { trade_date := f.trade_date
    stock_symbol := upperJS f.stock_symbol
    stock_name := if f.stock_name = "" then none else some f.stock_name
    transaction_type := f.transaction_type
    quantity := f.quantity
    price := f.price
    commission := f.commission.getD 0
    tax := f.tax.getD 0
    notes := if f.notes = "" then none else some f.notes }

/-- The row inserted on create: `{ ...recordData, user_id: user.id }`. -/
structure InsertRow where
  toRecordData : RecordData
  user_id : String
deriving DecidableEq, Repr

/-- The create path of `handleSubmit` (`record` is null): the submission is
rejected with `User not authenticated` before any insert when no user id is
present (`if (!user?.id) throw ...`; the empty string is falsy too);
otherwise the insert payload is the built record data with the caller's id
assigned as the row's owner. -/
def handleSubmitCreate (user : Option String) (f : FormData) :
    Except String InsertRow :=
  match user with
  | none => Except.error "User not authenticated"
  | some uid =>
    if uid = "" then Except.error "User not authenticated"
    else Except.ok { toRecordData := buildRecordData f, user_id := uid }

/-- A persisted `trading_records` row: all columns of the SQL table.
Timestamps are abstract instants (`Nat`). -/
structure PersistedRecord where
  id : String
  user_id : String
  trade_date : String
  stock_symbol : String
  stock_name : Option String
  transaction_type : TransactionType
  quantity : Int
  price : Rat
  commission : Option Rat
  tax : Option Rat
  notes : Option String
  created_at : Nat
  updated_at : Nat
deriving DecidableEq, Repr

/-- Effect of the update path (`UPDATE trading_records SET <recordData>
WHERE id = record.id`) combined with the `update_updated_at_column`
trigger: every payload column is overwritten, `updated_at` is set to
`now()`, and every column absent from the payload (`id`, `user_id`,
`created_at`) keeps its value. -/
def applyUpdate (d : RecordData) (now : Nat) (r : PersistedRecord) :
    PersistedRecord :=
  { id := r.id
    user_id := r.user_id
    trade_date := d.trade_date
    stock_symbol := d.stock_symbol
    stock_name := d.stock_name
    transaction_type := d.transaction_type
    quantity := d.quantity
    price := d.price
    commission := some d.commission
    tax := some d.tax
    notes := d.notes
    created_at := r.created_at
    updated_at := now }

/-- The edit dialog's `useEffect` prefill: the form state produced from an
existing record. `new Date(trade_date).toISOString().split('T')[0]` is the
identity on the canonical `YYYY-MM-DD` strings a DATE column yields, and
`toString` round-trips the parsed numeric fields, so both are modelled as
identities; `x || ''` maps a NULL text field to the empty string, and
`commission?.toString() || ''` maps a NULL fee to the empty field. -/
def recordToForm (r : PersistedRecord) : FormData :=
  { trade_date := r.trade_date
    stock_symbol := r.stock_symbol
    stock_name := r.stock_name.getD ""
    transaction_type := r.transaction_type
    quantity := r.quantity
    price := r.price
    commission := r.commission
    tax := r.tax
    notes := r.notes.getD "" }

/-- `handleInputChange('price', v)`: editing the price field only. -/
def updatePrice (f : FormData) (p : Rat) : FormData :=
  { f with price := p }

/-- Shape invariants every row written through the application's own form
satisfies: the symbol was uppercased on the way in, empty text fields were
stored as NULL rather than as the empty string, and the fee columns were
populated (0 by default). -/
def wellFormed (r : PersistedRecord) : Prop :=
  upperJS r.stock_symbol = r.stock_symbol
  ∧ r.stock_name ≠ some ""
  ∧ r.notes ≠ some ""
  ∧ r.commission.isSome
  ∧ r.tax.isSome

instance (r : PersistedRecord) : Decidable (wellFormed r) := by
  unfold wellFormed; infer_instance

/-- Claim C6: submitting the edit dialog after changing only the price field
leaves every other column of the record unchanged: the persisted row differs
from the original only in `price` and `updated_at`. Stated for rows
satisfying the shape invariants the application's own writes maintain. -/
theorem C6_price_update_frame (r : PersistedRecord) (p : Rat) (now : Nat)
    (h : wellFormed r) :
    applyUpdate (buildRecordData (updatePrice (recordToForm r) p)) now r
      = { r with price := p, updated_at := now } := by
  obtain ⟨hsym, hname, hnotes, hcomm, htax⟩ := h
  cases r with
  | mk id uid td sym sname tt q pr comm tax nts ca ua =>
    simp only [applyUpdate, buildRecordData, updatePrice, recordToForm]
    simp only [PersistedRecord.mk.injEq]
    refine ⟨trivial, trivial, trivial, hsym, ?_, trivial, trivial, trivial, ?_, ?_, ?_, trivial, trivial⟩
    · cases sname with
      | none => simp
      | some s =>
        have hs : s ≠ "" := fun hs => hname (by simp [hs])
        simp [hs]
    · cases comm with
      | none => simp at hcomm
      | some c => simp
    · cases tax with
      | none => simp at htax
      | some t => simp
    · cases nts with
      | none => simp
      | some s =>
        have hs : s ≠ "" := fun hs => hnotes (by simp [hs])
        simp [hs]

/-- A concrete well-formed persisted row. -/
def persistedRec0 : PersistedRecord :=
  { id := "id1", user_id := "u1", trade_date := "2025-01-02",
    stock_symbol := "AAA", stock_name := none,
    transaction_type := TransactionType.buy, quantity := 10, price := 100,
    commission := some 5, tax := some 0, notes := none,
    created_at := 7, updated_at := 7 }

/-- Instantiation of `C6_price_update_frame`: editing `persistedRec0`'s
price to 42 at instant 9. -/
theorem C6_price_update_frame_witness :
    applyUpdate (buildRecordData (updatePrice (recordToForm persistedRec0) 42)) 9 persistedRec0
      = { persistedRec0 with price := 42, updated_at := 9 } :=
  C6_price_update_frame persistedRec0 42 9 (by decide)

/-- Claim C7: a successful create persists the uppercase normalization of
the submitted symbol, and persists 0 for commission and for tax when the
corresponding form field was left empty. -/
theorem C7_create_normalization (uid : String) (f : FormData) (row : InsertRow)
    (h : handleSubmitCreate (some uid) f = Except.ok row) :
    row.toRecordData.stock_symbol = upperJS f.stock_symbol
    ∧ (f.commission = none → row.toRecordData.commission = 0)
    ∧ (f.tax = none → row.toRecordData.tax = 0) := by
  by_cases huid : uid = ""
  · simp [handleSubmitCreate, huid] at h
  · simp only [handleSubmitCreate, if_neg huid, Except.ok.injEq] at h
    subst h
    exact ⟨rfl, fun hc => by simp [buildRecordData, hc],
      fun ht => by simp [buildRecordData, ht]⟩

/-- A concrete create submission with a lowercase symbol and empty
commission and tax fields. -/
def createForm0 : FormData :=
  { trade_date := "2025-02-03", stock_symbol := "abc", stock_name := "",
    transaction_type := TransactionType.buy, quantity := 10, price := 100,
    commission := none, tax := none, notes := "" }

/-- Instantiation of `C7_create_normalization` on `createForm0` submitted by
user `u1`. -/
theorem C7_create_normalization_witness :
    handleSubmitCreate (some "u1") createForm0
      = Except.ok { toRecordData := buildRecordData createForm0, user_id := "u1" }
    ∧ (buildRecordData createForm0).stock_symbol = upperJS createForm0.stock_symbol
    ∧ (buildRecordData createForm0).commission = 0
    ∧ (buildRecordData createForm0).tax = 0 := by
  have h : handleSubmitCreate (some "u1") createForm0
      = Except.ok { toRecordData := buildRecordData createForm0, user_id := "u1" } := by
    simp [handleSubmitCreate]
  obtain ⟨h1, h2, h3⟩ := C7_create_normalization "u1" createForm0 _ h
  exact ⟨h, h1, h2 rfl, h3 rfl⟩

/-- Claim C9: creating a record with no authenticated user fails with an
error before any insert is attempted (the result carries no insert payload),
and any successful create carries the authenticated user's id as the row's
owner. -/
theorem C9_create_requires_auth :
    (∀ f : FormData, handleSubmitCreate none f = Except.error "User not authenticated")
    ∧ (∀ (uid : String) (f : FormData) (row : InsertRow),
        handleSubmitCreate (some uid) f = Except.ok row → row.user_id = uid) := by
  refine ⟨fun f => rfl, fun uid f row h => ?_⟩
  by_cases huid : uid = ""
  · simp [handleSubmitCreate, huid] at h
  · simp only [handleSubmitCreate, if_neg huid, Except.ok.injEq] at h
    subst h
    rfl

/-- Instantiation of `C9_create_requires_auth`: the unauthenticated
submission of `createForm0` errors, and the authenticated one records user
`u1` as owner. -/
theorem C9_create_requires_auth_witness :
    handleSubmitCreate none createForm0 = Except.error "User not authenticated"
    ∧ ({ toRecordData := buildRecordData createForm0, user_id := "u1" } : InsertRow).user_id
        = "u1" := by
  refine ⟨C9_create_requires_auth.1 createForm0,
    C9_create_requires_auth.2 "u1" createForm0 _ ?_⟩
  simp [handleSubmitCreate]

/-- Claim C10: the update payload built by `handleSubmit` contains only the
editable form columns, so an update never changes `id`, `user_id` or
`created_at`, whatever the form contents. -/
theorem C10_update_immutable_columns (f : FormData) (now : Nat)
    (r : PersistedRecord) :
    (applyUpdate (buildRecordData f) now r).id = r.id
    ∧ (applyUpdate (buildRecordData f) now r).user_id = r.user_id
    ∧ (applyUpdate (buildRecordData f) now r).created_at = r.created_at :=
  ⟨rfl, rfl, rfl⟩

/- ### The Role Resolver (`useUserRole`) -/

/-- The outcome of the `user_roles` lookup awaited in `fetchUserRole`:
`maybeSingle` succeeded with an optional row, the client reported a store
error, or the await threw. -/
inductive LookupOutcome where
  | ok (data : Option Role)
  | storeError
  | thrown
deriving DecidableEq, Repr

/-- The role value `fetchUserRole` passes to `setRole`: `null` when there is
no user; the fallback `'user'` on a store error or a thrown exception;
otherwise `data?.role || 'user'`. -/
def fetchUserRole (user : Option String) (outcome : LookupOutcome) : Option Role :=
  match user with
  | none => none
  | some _ =>
    match outcome with
    | .ok data => some (data.getD Role.user)
    | .storeError => some Role.user
    | .thrown => some Role.user

/-- Claim C3: for an authenticated identity the resolver yields `user` when
the lookup finds no `user_roles` row, on a store error and on a thrown
exception; `admin` can only come out of a lookup that actually returned an
`admin` row. -/
theorem C3_role_fail_safe :
    (∀ uid : String,
      fetchUserRole (some uid) (LookupOutcome.ok none) = some Role.user
      ∧ fetchUserRole (some uid) LookupOutcome.storeError = some Role.user
      ∧ fetchUserRole (some uid) LookupOutcome.thrown = some Role.user)
    ∧ (∀ (uid : String) (o : LookupOutcome),
        fetchUserRole (some uid) o = some Role.admin
          → o = LookupOutcome.ok (some Role.admin)) := by
  refine ⟨fun uid => ⟨rfl, rfl, rfl⟩, fun uid o h => ?_⟩
  cases o with
  | ok data =>
    cases data with
    | none => simp [fetchUserRole] at h
    | some r =>
      cases r with
      | admin => rfl
      | user => simp [fetchUserRole] at h
  | storeError => simp [fetchUserRole] at h
  | thrown => simp [fetchUserRole] at h

/-- Instantiation of `C3_role_fail_safe` for identity `u1`, including the
only-admin-from-an-admin-row part at an actual admin row. -/
theorem C3_role_fail_safe_witness :
    (fetchUserRole (some "u1") (LookupOutcome.ok none) = some Role.user
     ∧ fetchUserRole (some "u1") LookupOutcome.storeError = some Role.user
     ∧ fetchUserRole (some "u1") LookupOutcome.thrown = some Role.user)
    ∧ LookupOutcome.ok (some Role.admin) = LookupOutcome.ok (some Role.admin) :=
  ⟨C3_role_fail_safe.1 "u1",
   C3_role_fail_safe.2 "u1" (LookupOutcome.ok (some Role.admin)) rfl⟩

/- ### Trace semantics of the `useUserRole` effect -/

/-- One `fetchUserRole` invocation: the user id it was started for and the
`mounted` flag its cleanup closure flips. -/
structure Lookup where
  user : String
  mounted : Bool
deriving DecidableEq, Repr

/-- The hook's state: the `role` and `loading` React states plus every
lookup started so far (indexed by start order). -/
structure HookState where
  role : Option Role
  loading : Bool
  lookups : List Lookup
deriving DecidableEq, Repr

/-- Initial state: `useState<UserRole>(null)`, `useState(true)`, no lookup
started yet. -/
def initHook : HookState := { role := none, loading := true, lookups := [] }

/-- An event in a run of the hook: the `user` dependency changes (the
previous invocation's cleanup runs, then the effect body runs for the new
value), or the asynchronous lookup numbered `i` resolves against the role
table. -/
inductive HookEv where
  | setUser (u : Option String)
  | resolve (i : Nat)
deriving DecidableEq, Repr

/-- After a dependency change the cleanup of the superseded invocation has
run, so no previously started lookup still holds a live `mounted` flag. -/
def unmountAll (ls : List Lookup) : List Lookup :=
  ls.map (fun l => { l with mounted := false })

/-- Single step of the hook. On `setUser none` the effect body synchronously
runs `setRole(null); setLoading(false)`. On `setUser (some uid)` it starts a
new lookup carrying a fresh `mounted := true` flag. On `resolve i` — a
successful round trip, outcome `ok (roles uid)` — the callback runs
`setRole(data?.role || 'user')` unconditionally: in the source only
`setLoading(false)` sits behind `if (mounted)`, so the role is written even
when the lookup's invocation has already been cleaned up. -/
def stepHook (roles : String → Option Role) (s : HookState) : HookEv → HookState
  | .setUser none =>
      { role := none, loading := false, lookups := unmountAll s.lookups }
  | .setUser (some uid) =>
      { s with lookups := unmountAll s.lookups ++ [{ user := uid, mounted := true }] }
  | .resolve i =>
      match s.lookups[i]? with
      | none => s
      | some l =>
          { s with
            role := fetchUserRole (some l.user) (LookupOutcome.ok (roles l.user)),
            loading := if l.mounted then false else s.loading }

/-- A run of the hook over a list of events. -/
def runHook (roles : String → Option Role) (evs : List HookEv) : HookState :=
  evs.foldl (stepHook roles) initHook

/-- The role table of the stale-overwrite run: identity `A` has an `admin`
row, identity `B` has no row (actual role `user`). -/
def rolesAB : String → Option Role :=
  fun u => if u = "A" then some Role.admin else none

/-- The rapid-switch run: sign in as `A` (lookup 0 starts), sign out, sign
in as `B` (lookup 1 starts), `B`'s lookup resolves, and finally `A`'s stale
lookup resolves last. Every started lookup resolves exactly once. -/
def staleTrace : List HookEv :=
  [HookEv.setUser (some "A"), HookEv.setUser none, HookEv.setUser (some "B"),
   HookEv.resolve 1, HookEv.resolve 0]

/-- Claim C2 fails on the source: after the rapid identity switch
`A → none → B` in which `A`'s in-flight lookup resolves after `B`'s, the
hook ends with `role = 'admin'` — the stale role computed for `A` — while
`B`'s actual resolved role is `'user'`. The `mounted` cancellation flag does
not prevent this because it guards only `setLoading`, not `setRole`. -/
theorem C2_stale_role_overwrite :
    (runHook rolesAB staleTrace).role = some Role.admin
    ∧ fetchUserRole (some "B") (LookupOutcome.ok (rolesAB "B")) = some Role.user
    ∧ (runHook rolesAB staleTrace).lookups
        = [{ user := "A", mounted := false }, { user := "B", mounted := true }] := by
  refine ⟨?_, ?_, ?_⟩ <;> decide

end StockJournal
